import Mathlib

/-!
Shallow embedding of the authentication subsystem of go-clean-boiler:
the credential service (`internal/service/auth_service.go`), the user
service (`internal/service/user_service.go`), the request-gate
middleware (`internal/middleware/auth.go`), the HTTP auth handler
(`internal/handler/auth_handler.go`) and an in-memory instantiation of
the user repository (`internal/repository/postgres/user_repository.go`).
External collaborators that are not part of the repository's source
(the bcrypt hasher, the jwt codec, the GORM store) appear either as
abstract parameters of the service (a record of functions) or as
models written from the spec, each marked in its doc comment.
-/

namespace GoCleanBoiler

/-- Modelled from the spec: `internal/domain` is not under the sources;
the Credential Record of §3 has a unique identifier, email, password
hash, display name and creation/modification timestamps (the
soft-delete marker plays no role in the claims and is omitted). -/
structure User where
  id : Nat
  email : String
  password : String
  name : String
  createdAt : Nat
  updatedAt : Nat
deriving Repr, DecidableEq

/-- `request.RegisterRequest` from `internal/dto/request`. -/
structure RegisterRequest where
  email : String
  password : String
  name : String
deriving Repr, DecidableEq

/-- `request.LoginRequest` from `internal/dto/request`. -/
structure LoginRequest where
  email : String
  password : String
deriving Repr, DecidableEq

/-- `request.CreateUserRequest` from `internal/dto/request/user_request.go`. -/
structure CreateUserRequest where
  email : String
  password : String
  name : String
deriving Repr, DecidableEq

/-- `request.UpdateUserRequest` from `internal/dto/request/user_request.go`;
an empty string means "field not provided". -/
structure UpdateUserRequest where
  email : String
  name : String
deriving Repr, DecidableEq

/-- `response.UserResponse` (src/unnamed/part_000). -/
structure UserResponse where
  id : Nat
  email : String
  name : String
  createdAt : Nat
  updatedAt : Nat
deriving Repr, DecidableEq

/-- `response.AuthResponse` (src/unnamed/part_000): identity summary plus token. -/
structure AuthResponse where
  user : UserResponse
  token : String
deriving Repr, DecidableEq

/-- Outcome of `UserRepository.FindByEmail`: a record, gorm.ErrRecordNotFound,
or any other storage error (carried as its message). -/
inductive FindResult where
  | found (user : User)
  | notFound
  | failure (msg : String)
deriving Repr, DecidableEq

/-- The collaborators `authService` calls, as a record of functions over an
explicit store state (a list of records): the repository reads and writes
(`FindByEmail`, `Create`), the bcrypt hasher (`GenerateFromPassword`,
`CompareHashAndPassword`, the latter reduced to the Bool "does it match";
any comparison error is a mismatch for the caller), and `generateToken`,
which per src/unnamed/part_001 lines 116-124 depends only on the user's
ID and email (plus fixed configuration). -/
structure AuthDeps where
  findByEmail : List User → String → FindResult
  create : List User → User → Except String (User × List User)
  hashPassword : String → Except String String
  compareHash : String → String → Bool
  generateToken : Nat → String → Except String String

/-- `userService.toUserResponse` / the response literal built by `authService`. -/
def toUserResponse (u : User) : UserResponse :=
  { id := u.id, email := u.email, name := u.name
    createdAt := u.createdAt, updatedAt := u.updatedAt }

/-- The `domain.User` literal built by `authService.Register` before `Create`
assigns the ID (GORM's zero value for the ID and timestamps). -/
def newUser (req : RegisterRequest) (digest : String) : User :=
  { id := 0, email := req.email, password := digest, name := req.name
    createdAt := 0, updatedAt := 0 }

namespace authService

/-- `authService.Register` (src/unnamed/part_001 lines 36-79), returning the
result together with the store state after the call. -/
def Register (d : AuthDeps) (st : List User) (req : RegisterRequest) :
    Except String AuthResponse × List User :=
  match d.findByEmail st req.email with
  | .found _ => (.error "email already exists", st)
  | .failure e => (.error e, st)
  | .notFound =>
    match d.hashPassword req.password with
    | .error e => (.error e, st)
    | .ok digest =>
      match d.create st (newUser req digest) with
      | .error e => (.error e, st)
      | .ok (user, st') =>
        match d.generateToken user.id user.email with
        | .error e => (.error e, st')
        | .ok token => (.ok { user := toUserResponse user, token := token }, st')

/-- `authService.Login` (src/unnamed/part_001 lines 82-113), returning the
result together with the store state after the call. -/
def Login (d : AuthDeps) (st : List User) (req : LoginRequest) :
    Except String AuthResponse × List User :=
  match d.findByEmail st req.email with
  | .notFound => (.error "invalid credentials", st)
  | .failure e => (.error e, st)
  | .found user =>
    if d.compareHash user.password req.password then
      match d.generateToken user.id user.email with
      | .error e => (.error e, st)
      | .ok token => (.ok { user := toUserResponse user, token := token }, st)
    else (.error "invalid credentials", st)

end authService

/-- In-memory `FindByEmail`: the postgres repository's
`Where("email = ?", email).First` over a list store (first match). -/
def findByEmailL (st : List User) (email : String) : FindResult :=
  match st.find? (fun u => u.email == email) with
  | some u => .found u
  | none => .notFound

/-- Fresh primary key for the in-memory store (auto-increment). -/
def nextID (st : List User) : Nat := (st.map User.id).foldr max 0 + 1

/-- In-memory `Create`: assigns the next ID and appends the record. -/
def createL (st : List User) (u : User) : Except String (User × List User) :=
  let u' := { u with id := nextID st }
  .ok (u', st ++ [u'])

/-- In-memory `Update`: the postgres repository's `Save` replaces the
record with the same primary key. -/
def updateL (st : List User) (u : User) : List User :=
  st.map (fun v => if v.id == u.id then u else v)

/-- `authService` deps over the in-memory repository, with the hasher and
token generator still abstract. -/
def listDeps (hash : String → Except String String)
    (cmp : String → String → Bool)
    (gen : Nat → String → Except String String) : AuthDeps :=
  { findByEmail := findByEmailL, create := createL
    hashPassword := hash, compareHash := cmp, generateToken := gen }

/-- Token claims (§3 of the spec; the Go `jwt.Claims` carries UserID, Email
and the registered issued-at/expiry timestamps). -/
structure Claims where
  userID : Nat
  email : String
  issuedAt : Nat
  expiresAt : Nat
deriving Repr, DecidableEq

/-- Kinds of verification failure of the Token Codec (§4.2). -/
inductive TokenError where
  | badSignature
  | expired
deriving Repr, DecidableEq

/-- Modelled from the spec: `pkg/jwt` is not under the sources. A signed
token is the claims payload together with its signature; an HMAC-class
keyed signature over the payload is idealised as unforgeable, so the
signature is modelled as the signing secret itself — verification of the
signature succeeds exactly when the verifying secret equals the one the
token was signed with and the claims are untampered. -/
structure Token where
  claims : Claims
  sig : String
deriving Repr, DecidableEq

namespace jwt

/-- Modelled from the spec: `pkg/jwt.GenerateToken` (Issue, §4.2) is not
under the sources. It serialises the claims with issued-at = now and
expiry = now + ttl and signs them with the secret. -/
def GenerateToken (userID : Nat) (email : String) (secret : String)
    (ttl : Nat) (now : Nat) : Token :=
  { claims := { userID := userID, email := email
                issuedAt := now, expiresAt := now + ttl }
    sig := secret }

/-- Modelled from the spec: `pkg/jwt.ValidateToken` (Verify, §4.2) is not
under the sources. It checks the signature against the secret, then checks
now < expiry; the parse step (`MalformedToken`) cannot fail on a
structurally typed token. -/
def ValidateToken (tok : Token) (secret : String) (now : Nat) :
    Except TokenError Claims :=
  if tok.sig == secret then
    if now < tok.claims.expiresAt then .ok tok.claims
    else .error .expired
  else .error .badSignature

end jwt

/-- What one run of the gate middleware leaves behind: the response written
(status code and message, `none` when no rejection was written), whether
`c.Abort` was called, the `user_id` and `user_email` values set on the
context, and whether `c.Next` ran (whether downstream handlers execute). -/
structure GateOutcome where
  response : Option (Nat × String)
  aborted : Bool
  ctxUserID : Option Nat
  ctxEmail : Option String
  nextRan : Bool
deriving Repr, DecidableEq

/-- The rejection path of the middleware: `response.Unauthorized`
(status 401) followed by `c.Abort`; the context is left unannotated and
`c.Next` is never called. -/
def rejectOutcome (msg : String) : GateOutcome :=
  { response := some (401, msg), aborted := true
    ctxUserID := none, ctxEmail := none, nextRan := false }

/-- `strings.SplitN(s, " ", 2)` on the character list: the part before the
first space, and — when a space exists — the remainder after it.
A `none` second component is Go's single-element result (`len(parts) = 1`). -/
def splitN2 : List Char → List Char × Option (List Char)
  | [] => ([], none)
  | c :: rest =>
    if c = ' ' then ([], some rest)
    else
      let p := splitN2 rest
      (c :: p.1, p.2)

/-- `AuthMiddleware` (internal/middleware/auth.go lines 12-45), abstract in
the codec's verification function. A missing Authorization header is the
empty string, as returned by `c.GetHeader`. -/
def AuthMiddleware (validate : List Char → Except String Claims)
    (authHeader : String) : GateOutcome :=
  if authHeader = "" then
    rejectOutcome "Authorization header required"
  else
    match splitN2 authHeader.data with
    | (scheme, some token) =>
      if scheme = "Bearer".data then
        match validate token with
        | .error _ => rejectOutcome "Invalid or expired token"
        | .ok claims =>
          { response := none, aborted := false
            ctxUserID := some claims.userID, ctxEmail := some claims.email
            nextRan := true }
      else rejectOutcome "Invalid authorization header format"
    | (_, none) => rejectOutcome "Invalid authorization header format"

/-- An HTTP response as built by `pkg/response`: status code, success flag,
message, optional payload. -/
structure HTTPResponse where
  status : Nat
  success : Bool
  message : String
  data : Option AuthResponse
deriving Repr, DecidableEq

namespace AuthHandler

/-- `AuthHandler.Register` (internal/handler/auth_handler.go lines 29-43)
after binding/validation: maps the service result to the HTTP response —
`response.BadRequest(c, err.Error(), nil)` on error,
`response.Created` on success. -/
def Register (result : Except String AuthResponse) : HTTPResponse :=
  match result with
  | .error e => { status := 400, success := false, message := e, data := none }
  | .ok r => { status := 201, success := true
               message := "User registered successfully", data := some r }

/-- `AuthHandler.Login` (internal/handler/auth_handler.go lines 54-68)
after binding/validation. -/
def Login (result : Except String AuthResponse) : HTTPResponse :=
  match result with
  | .error e => { status := 400, success := false, message := e, data := none }
  | .ok r => { status := 200, success := true
               message := "Login successful", data := some r }

end AuthHandler

namespace userService

/-- `userService.Create` (internal/service/user_service.go lines 32-60)
over the in-memory repository, abstract in the hasher. -/
def Create (hash : String → Except String String) (st : List User)
    (req : CreateUserRequest) : Except String UserResponse × List User :=
  match findByEmailL st req.email with
  | .found _ => (.error "email already exists", st)
  | .failure e => (.error e, st)
  | .notFound =>
    match hash req.password with
    | .error e => (.error e, st)
    | .ok digest =>
      match createL st { id := 0, email := req.email, password := digest
                         name := req.name, createdAt := 0, updatedAt := 0 } with
      | .error e => (.error e, st)
      | .ok (user, st') => (.ok (toUserResponse user), st')

/-- `userService.Update` (internal/service/user_service.go lines 92-120)
over the in-memory repository: find the user by ID; when an email is
provided, refuse it if `FindByEmail` finds it on a different user,
otherwise set it; when a name is provided, set it; save. -/
def Update (st : List User) (id : Nat) (req : UpdateUserRequest) :
    Except String UserResponse × List User :=
  match st.find? (fun u => u.id == id) with
  | none => (.error "user not found", st)
  | some user0 =>
    let emailTaken : Bool :=
      if req.email = "" then false
      else
        match st.find? (fun u => u.email == req.email) with
        | some existing => existing.id != id
        | none => false
    if emailTaken then (.error "email already exists", st)
    else
      let user1 := if req.email = "" then user0 else { user0 with email := req.email }
      let user2 := if req.name = "" then user1 else { user1 with name := req.name }
      (.ok (toUserResponse user2), updateL st user2)

end userService

/-! Concrete collaborator instances used to exercise the theorems on
closed inputs. -/

/-- A hasher that always succeeds, tagging the plaintext (stands in for a
successful `bcrypt.GenerateFromPassword`). -/
def demoHash (p : String) : Except String String := .ok ("h:" ++ p)

/-- The matching comparison (a successful `bcrypt.CompareHashAndPassword`). -/
def demoCmp (digest p : String) : Bool := digest == "h:" ++ p

/-- A token generator that always succeeds. -/
def demoGen (id : Nat) (email : String) : Except String String :=
  .ok ("tok:" ++ toString id ++ email)

/-- The in-memory service with all collaborators healthy. -/
def demoDeps : AuthDeps := listDeps demoHash demoCmp demoGen

/-- Deps whose email lookup fails with the given storage error. -/
def storageFailDeps (e : String) : AuthDeps :=
  { findByEmail := fun _ _ => .failure e, create := createL
    hashPassword := demoHash, compareHash := demoCmp, generateToken := demoGen }

/-- Deps whose hashing step fails. -/
def failHashDeps : AuthDeps :=
  listDeps (fun _ => .error "hash error") demoCmp demoGen

/-- Deps whose persist step fails. -/
def failCreateDeps : AuthDeps :=
  { findByEmail := findByEmailL, create := fun _ _ => .error "insert error"
    hashPassword := demoHash, compareHash := demoCmp, generateToken := demoGen }

/-- Deps whose token issuance fails after a successful persist. -/
def failTokenDeps : AuthDeps :=
  listDeps demoHash demoCmp (fun _ _ => .error "sign error")

/-- The §8 scenario registration request. -/
def regReq : RegisterRequest := { email := "a@x.com", password := "secret1", name := "A" }

/-- The record that registering `regReq` against the empty store persists. -/
def regUser : User :=
  { id := 1, email := "a@x.com", password := "h:secret1", name := "A"
    createdAt := 0, updatedAt := 0 }

/-- The §8 scenario claims for user 42. -/
def demoClaims : Claims := { userID := 42, email := "a@x.com", issuedAt := 0, expiresAt := 10 }

/-- A codec verification stub that accepts exactly the token `abc`. -/
def demoValidate (t : List Char) : Except String Claims :=
  if t = "abc".data then .ok demoClaims else .error "bad token"

/-- §3 invariant: at most one Credential Record per email. -/
def UniqueEmails (st : List User) : Prop :=
  st.Pairwise (fun a b => a.email ≠ b.email)

/-- Unique primary keys, the store's own invariant on identifiers. -/
def UniqueIDs (st : List User) : Prop :=
  st.Pairwise (fun a b => a.id ≠ b.id)

/-! Helper lemmas shared by the claim theorems. -/

/-- `strings.SplitN` on a well-formed bearer header yields the scheme and
the token. -/
theorem splitN2_bearer (t : List Char) :
    splitN2 ('B' :: 'e' :: 'a' :: 'r' :: 'e' :: 'r' :: ' ' :: t) = (['B', 'e', 'a', 'r', 'e', 'r'], some t) := by
  simp [splitN2]

/-- In a store with unique emails, two members with the same email are the
same record. -/
theorem unique_emails_mem_eq {st : List User} (hue : UniqueEmails st) {v w : User}
    (hv : v ∈ st) (hw : w ∈ st) (he : v.email = w.email) : v = w := by
  by_contra hne
  have hsym : Symmetric (fun a b : User => a.email ≠ b.email) := by
    intro a b h he2
    exact h he2.symm
  exact (List.Pairwise.forall hsym hue hv hw hne) he

/-- Replacing the record with `unew.id` by `unew` keeps emails unique as
long as no other record holds `unew`'s email. -/
theorem updateL_preserves_unique (st : List User) (unew : User)
    (hue : UniqueEmails st) (hid : UniqueIDs st)
    (hfresh : ∀ v ∈ st, v.email = unew.email → v.id = unew.id) :
    UniqueEmails (updateL st unew) := by
  unfold updateL UniqueEmails
  rw [List.pairwise_map]
  refine (hue.and hid).imp_of_mem ?_
  intro a b ha hb hab
  obtain ⟨hae, haid⟩ := hab
  by_cases h1 : a.id = unew.id <;> by_cases h2 : b.id = unew.id <;> simp [h1, h2]
  · exact absurd (h1.trans h2.symm) haid
  · intro he
    exact h2 (hfresh b hb he.symm)
  · intro he
    exact h1 (hfresh a ha he)
  · exact hae

/-- `authService.Register` over the in-memory store keeps emails unique. -/
theorem register_preserves_unique (hash : String → Except String String)
    (cmp : String → String → Bool) (gen : Nat → String → Except String String)
    (st : List User) (req : RegisterRequest) (hue : UniqueEmails st) :
    UniqueEmails (authService.Register (listDeps hash cmp gen) st req).2 := by
  rcases hfind : st.find? (fun u => u.email == req.email) with _ | u
  · rcases hh : hash req.password with e | digest
    · simpa [authService.Register, listDeps, findByEmailL, hfind, hh] using hue
    · have happ : UniqueEmails (st ++ [{ newUser req digest with id := nextID st }]) := by
        refine List.pairwise_append.mpr ⟨hue, List.pairwise_singleton _ _, ?_⟩
        intro a ha b hb
        simp only [List.mem_singleton] at hb
        subst hb
        have := List.find?_eq_none.mp hfind a ha
        simpa [newUser] using this
      rcases hg : gen (nextID st) req.email with e | tok <;>
        simpa [authService.Register, listDeps, findByEmailL, createL, newUser, hfind, hh, hg]
          using happ
  · simpa [authService.Register, listDeps, findByEmailL, hfind] using hue

/-- `userService.Create` over the in-memory store keeps emails unique. -/
theorem create_preserves_unique (hash : String → Except String String)
    (st : List User) (creq : CreateUserRequest) (hue : UniqueEmails st) :
    UniqueEmails (userService.Create hash st creq).2 := by
  rcases hfind : st.find? (fun u => u.email == creq.email) with _ | u
  · rcases hh : hash creq.password with e | digest
    · simpa [userService.Create, findByEmailL, hfind, hh] using hue
    · have happ : UniqueEmails (st ++
          [{ id := nextID st, email := creq.email, password := digest
             name := creq.name, createdAt := 0, updatedAt := 0 }]) := by
        refine List.pairwise_append.mpr ⟨hue, List.pairwise_singleton _ _, ?_⟩
        intro a ha b hb
        simp only [List.mem_singleton] at hb
        subst hb
        have := List.find?_eq_none.mp hfind a ha
        simpa using this
      simpa [userService.Create, findByEmailL, createL, hfind, hh] using happ
  · simpa [userService.Create, findByEmailL, hfind] using hue

/-- `userService.Update` over the in-memory store keeps emails unique
(given unique primary keys). -/
theorem update_preserves_unique (st : List User) (id : Nat) (ureq : UpdateUserRequest)
    (hue : UniqueEmails st) (hid : UniqueIDs st) :
    UniqueEmails (userService.Update st id ureq).2 := by
  rcases hfind : st.find? (fun u => u.id == id) with _ | u0
  · simpa [userService.Update, hfind] using hue
  have hu0mem : u0 ∈ st := List.mem_of_find?_eq_some hfind
  have hu0id : u0.id = id := by
    have := List.find?_some hfind
    simpa using this
  have key : ∀ unew : User, unew.id = u0.id →
      (∀ v ∈ st, v.email = unew.email → v.id = unew.id) →
      UniqueEmails (updateL st unew) := fun unew _ hfr =>
    updateL_preserves_unique st unew hue hid hfr
  by_cases hemail : ureq.email = ""
  · simp [userService.Update, hfind, hemail]
    have fr : ∀ unew : User, unew.id = u0.id → unew.email = u0.email →
        UniqueEmails (updateL st unew) := by
      intro unew hidnew hemnew
      refine key unew hidnew ?_
      intro v hv hev
      rw [hemnew] at hev
      rw [hidnew]
      rw [unique_emails_mem_eq hue hv hu0mem hev]
    by_cases hname : ureq.name = "" <;> simp [hname]
    · exact fr u0 rfl rfl
    · exact fr _ rfl rfl
  · rcases hfe : st.find? (fun u => u.email == ureq.email) with _ | ex
    · simp [userService.Update, hfind, hemail, hfe]
      have fr : ∀ unew : User, unew.id = u0.id → unew.email = ureq.email →
          UniqueEmails (updateL st unew) := by
        intro unew hidnew hemnew
        refine key unew hidnew ?_
        intro v hv hev
        rw [hemnew] at hev
        exact absurd (by simpa using hev) (by simpa using List.find?_eq_none.mp hfe v hv)
      by_cases hname : ureq.name = "" <;> simp [hname]
      · exact fr _ rfl rfl
      · exact fr _ rfl rfl
    · have hexmem : ex ∈ st := List.mem_of_find?_eq_some hfe
      have hexem : ex.email = ureq.email := by simpa using List.find?_some hfe
      by_cases hexid : ex.id = id
      · simp [userService.Update, hfind, hemail, hfe, hexid]
        have fr : ∀ unew : User, unew.id = u0.id → unew.email = ureq.email →
            UniqueEmails (updateL st unew) := by
          intro unew hidnew hemnew
          refine key unew hidnew ?_
          intro v hv hev
          rw [hemnew, ← hexem] at hev
          have hveq : v = ex := unique_emails_mem_eq hue hv hexmem hev
          rw [hidnew, hu0id, ← hexid, hveq]
        by_cases hname : ureq.name = "" <;> simp [hname]
        · exact fr _ rfl rfl
        · exact fr _ rfl rfl
      · simpa [userService.Update, hfind, hemail, hfe, hexid] using hue

/-! The claim theorems. -/

/-- C1: for every login input, `Login` with an email that exists in the
store but a wrong password returns the same externally visible error
(and the same HTTP response through the handler) as `Login` with an email
that has no record in the store: both yield the merged
"invalid credentials" result. -/
theorem login_invalid_credentials_indistinguishable
    (d1 d2 : AuthDeps) (st1 st2 : List User) (req : LoginRequest) (u : User)
    (hfound : d1.findByEmail st1 req.email = .found u)
    (hcmp : d1.compareHash u.password req.password = false)
    (hmiss : d2.findByEmail st2 req.email = .notFound) :
    (authService.Login d1 st1 req).1 = (authService.Login d2 st2 req).1 ∧
    (authService.Login d1 st1 req).1 = Except.error "invalid credentials" ∧
    AuthHandler.Login (authService.Login d1 st1 req).1 =
      AuthHandler.Login (authService.Login d2 st2 req).1 := by
  simp [authService.Login, hfound, hcmp, hmiss]

/-- Witness for C1: wrong password for the registered `a@x.com` versus
login against the empty store. -/
theorem login_invalid_credentials_indistinguishable_witness :
    (authService.Login demoDeps [regUser] { email := "a@x.com", password := "wrong" }).1 =
      (authService.Login demoDeps [] { email := "a@x.com", password := "wrong" }).1 ∧
    (authService.Login demoDeps [regUser] { email := "a@x.com", password := "wrong" }).1 =
      Except.error "invalid credentials" ∧
    AuthHandler.Login
        (authService.Login demoDeps [regUser] { email := "a@x.com", password := "wrong" }).1 =
      AuthHandler.Login
        (authService.Login demoDeps [] { email := "a@x.com", password := "wrong" }).1 :=
  login_invalid_credentials_indistinguishable demoDeps demoDeps [regUser] [] _ regUser
    (by decide) (by decide) (by decide)

/-- C2: `Register` follows the specified step order and error mapping —
a found record fails with the duplicate-email error leaving the store
alone (whatever the hashing, persisting and signing collaborators do);
a lookup error other than not-found is propagated; otherwise the
password is hashed, the record persisted, a token issued for the new
user's ID and email, and the identity summary plus token returned,
each step's failure terminating the sequence. -/
theorem register_follows_state_machine (d : AuthDeps) (st : List User) (req : RegisterRequest) :
    (∀ u, d.findByEmail st req.email = .found u →
      authService.Register d st req = (.error "email already exists", st)) ∧
    (∀ e, d.findByEmail st req.email = .failure e →
      authService.Register d st req = (.error e, st)) ∧
    (d.findByEmail st req.email = .notFound →
      (∀ e, d.hashPassword req.password = .error e →
        authService.Register d st req = (.error e, st)) ∧
      (∀ digest, d.hashPassword req.password = .ok digest →
        ((∀ e, d.create st (newUser req digest) = .error e →
          authService.Register d st req = (.error e, st)) ∧
        (∀ u st2, d.create st (newUser req digest) = .ok (u, st2) →
          ((∀ e, d.generateToken u.id u.email = .error e →
            authService.Register d st req = (.error e, st2)) ∧
          (∀ tok, d.generateToken u.id u.email = .ok tok →
            authService.Register d st req =
              (.ok { user := toUserResponse u, token := tok }, st2))))))) :=
  ⟨fun _ hf => by simp [authService.Register, hf],
    fun _ hf => by simp [authService.Register, hf],
    fun hf => ⟨fun _ hh => by simp [authService.Register, hf, hh],
      fun _ hh => ⟨fun _ hc => by simp [authService.Register, hf, hh, hc],
        fun _ _ hc => ⟨fun _ hg => by simp [authService.Register, hf, hh, hc, hg],
          fun _ hg => by simp [authService.Register, hf, hh, hc, hg]⟩⟩⟩⟩

/-- Witness for C2: every branch of the state machine exercised on
concrete collaborators — duplicate email, lookup failure, hashing
failure, persist failure, signing failure, and full success. -/
theorem register_follows_state_machine_witness :
    authService.Register demoDeps [regUser] regReq =
      (.error "email already exists", [regUser]) ∧
    authService.Register (storageFailDeps "db down") [] regReq = (.error "db down", []) ∧
    authService.Register failHashDeps [] regReq = (.error "hash error", []) ∧
    authService.Register failCreateDeps [] regReq = (.error "insert error", []) ∧
    authService.Register failTokenDeps [] regReq = (.error "sign error", [regUser]) ∧
    authService.Register demoDeps [] regReq =
      (.ok { user := toUserResponse regUser, token := "tok:1a@x.com" }, [regUser]) :=
  ⟨(register_follows_state_machine demoDeps [regUser] regReq).1 regUser (by decide),
    (register_follows_state_machine (storageFailDeps "db down") [] regReq).2.1 "db down" rfl,
    ((register_follows_state_machine failHashDeps [] regReq).2.2 rfl).1 "hash error" rfl,
    (((register_follows_state_machine failCreateDeps [] regReq).2.2 rfl).2 "h:secret1"
      rfl).1 "insert error" rfl,
    ((((register_follows_state_machine failTokenDeps [] regReq).2.2 rfl).2 "h:secret1"
      rfl).2 regUser [regUser] rfl).1 "sign error" rfl,
    ((((register_follows_state_machine demoDeps [] regReq).2.2 rfl).2 "h:secret1"
      rfl).2 regUser [regUser] rfl).2 "tok:1a@x.com" rfl⟩

/-- C6: verifying a token produced by `Issue` with the same secret returns
claims equal to the issued ones — same subject ID and email — whenever the
time of verification is before issued-at plus ttl. -/
theorem issue_verify_roundtrip (userID : Nat) (email secret : String) (ttl now now2 : Nat)
    (h : now2 < now + ttl) :
    jwt.ValidateToken (jwt.GenerateToken userID email secret ttl now) secret now2 =
      .ok { userID := userID, email := email, issuedAt := now, expiresAt := now + ttl } := by
  simp [jwt.ValidateToken, jwt.GenerateToken, h]

/-- Witness for C6: a token for user 42 with ttl 10 issued at 100 verifies
at 105. -/
theorem issue_verify_roundtrip_witness :
    jwt.ValidateToken (jwt.GenerateToken 42 "a@x.com" "s" 10 100) "s" 105 =
      .ok { userID := 42, email := "a@x.com", issuedAt := 100, expiresAt := 110 } :=
  issue_verify_roundtrip 42 "a@x.com" "s" 10 100 105 (by decide)

/-- C9: `Login` never modifies the user store — whatever its collaborators
return, the store after any `Login` call equals the store before it. -/
theorem login_never_writes_store (d : AuthDeps) (st : List User) (req : LoginRequest) :
    (authService.Login d st req).2 = st := by
  unfold authService.Login
  rcases d.findByEmail st req.email with u | _ | e
  · dsimp only
    split
    · rcases d.generateToken u.id u.email with e | tok <;> simp
    · rfl
  · rfl
  · rfl

/-- C10: `Register` is not atomic with respect to token issuance — when the
persist step succeeds and token generation then fails, the call returns the
error while the store keeps the newly created record (the post-persist
state); only the failures before the persist step leave the store
unchanged. -/
theorem register_not_atomic_token_failure (d : AuthDeps) (st : List User)
    (req : RegisterRequest) :
    (∀ digest u st2 e,
      d.findByEmail st req.email = .notFound →
      d.hashPassword req.password = .ok digest →
      d.create st (newUser req digest) = .ok (u, st2) →
      d.generateToken u.id u.email = .error e →
      authService.Register d st req = (.error e, st2)) ∧
    (∀ u, d.findByEmail st req.email = .found u →
      (authService.Register d st req).2 = st) ∧
    (∀ e, d.findByEmail st req.email = .failure e →
      (authService.Register d st req).2 = st) ∧
    (∀ e, d.findByEmail st req.email = .notFound → d.hashPassword req.password = .error e →
      (authService.Register d st req).2 = st) :=
  ⟨fun _ _ _ _ hf hh hc hg => by simp [authService.Register, hf, hh, hc, hg],
    fun _ hf => by simp [authService.Register, hf],
    fun _ hf => by simp [authService.Register, hf],
    fun _ hf hh => by simp [authService.Register, hf, hh]⟩

/-- Witness for C10: with a failing signer the record `regUser` stays in
the store while `Register` reports the signing error; the duplicate,
lookup-failure and hashing-failure paths leave the store untouched. -/
theorem register_not_atomic_token_failure_witness :
    authService.Register failTokenDeps [] regReq = (.error "sign error", [regUser]) ∧
    (authService.Register demoDeps [regUser] regReq).2 = [regUser] ∧
    (authService.Register (storageFailDeps "db down") [] regReq).2 = [] ∧
    (authService.Register failHashDeps [] regReq).2 = [] :=
  ⟨(register_not_atomic_token_failure failTokenDeps [] regReq).1 "h:secret1" regUser
      [regUser] "sign error" rfl rfl rfl rfl,
    (register_not_atomic_token_failure demoDeps [regUser] regReq).2.1 regUser (by decide),
    (register_not_atomic_token_failure (storageFailDeps "db down") [] regReq).2.2.1
      "db down" rfl,
    (register_not_atomic_token_failure failHashDeps [] regReq).2.2.2 "hash error" rfl rfl⟩

/-- C3: for every incoming request, if the authorization header is missing,
or present but not in the `Bearer <token>` shape, or the token fails
verification for any reason, `AuthMiddleware` writes a 401 Unauthenticated
response, aborts, and never runs the downstream handler. -/
theorem gate_rejects_unauthenticated (v : List Char → Except String Claims) (hdr : String) :
    (hdr = "" → AuthMiddleware v hdr = rejectOutcome "Authorization header required") ∧
    (hdr ≠ "" → (splitN2 hdr.data).2 = none →
      AuthMiddleware v hdr = rejectOutcome "Invalid authorization header format") ∧
    (∀ scheme token, hdr ≠ "" → splitN2 hdr.data = (scheme, some token) →
      scheme ≠ "Bearer".data →
      AuthMiddleware v hdr = rejectOutcome "Invalid authorization header format") ∧
    (∀ token e, hdr ≠ "" → splitN2 hdr.data = ("Bearer".data, some token) →
      v token = .error e →
      AuthMiddleware v hdr = rejectOutcome "Invalid or expired token") ∧
    (∀ m, (rejectOutcome m).aborted = true ∧ (rejectOutcome m).nextRan = false ∧
      (rejectOutcome m).response = some (401, m)) := by
  refine ⟨fun h => by simp [AuthMiddleware, h], ?_, ?_, ?_, fun m => ⟨rfl, rfl, rfl⟩⟩
  · intro hne hnone
    rcases hp : splitN2 hdr.data with ⟨s, o⟩
    rw [hp] at hnone
    simp at hnone
    subst hnone
    simp [AuthMiddleware, hne, hp]
  · intro scheme token hne hp hsch
    simp [AuthMiddleware, hne, hp, hsch]
  · intro token e hne hp hv
    simp [AuthMiddleware, hne, hp, hv]

/-- Witness for C3: the missing header, the wrong-shape headers
(`Bearer` alone and the `Token abc` scheme of §8), and a failing
verification are all rejected with the corresponding 401 response. -/
theorem gate_rejects_unauthenticated_witness :
    AuthMiddleware demoValidate "" = rejectOutcome "Authorization header required" ∧
    AuthMiddleware demoValidate "Bearer" =
      rejectOutcome "Invalid authorization header format" ∧
    AuthMiddleware demoValidate "Token abc" =
      rejectOutcome "Invalid authorization header format" ∧
    AuthMiddleware demoValidate "Bearer zzz" = rejectOutcome "Invalid or expired token" ∧
    (rejectOutcome "Invalid or expired token").aborted = true ∧
    (rejectOutcome "Invalid or expired token").nextRan = false :=
  ⟨(gate_rejects_unauthenticated demoValidate "").1 rfl,
    (gate_rejects_unauthenticated demoValidate "Bearer").2.1 (by decide) (by decide),
    (gate_rejects_unauthenticated demoValidate "Token abc").2.2.1 "Token".data "abc".data
      (by decide) (by decide) (by decide),
    (gate_rejects_unauthenticated demoValidate "Bearer zzz").2.2.2.1 "zzz".data "bad token"
      (by decide) (by decide) rfl,
    ((gate_rejects_unauthenticated demoValidate "x").2.2.2.2 "Invalid or expired token").1,
    ((gate_rejects_unauthenticated demoValidate "x").2.2.2.2 "Invalid or expired token").2.1⟩

/-- C4: for every request carrying a bearer token the codec verifies,
`AuthMiddleware` attaches the resolved identity — the user ID and email of
the token's claims — to the request context, writes no rejection, does not
abort, and lets the pipeline continue to the downstream handler. -/
theorem gate_attaches_identity (v : List Char → Except String Claims) (hdr : String)
    (token : List Char) (claims : Claims)
    (hshape : hdr.data = "Bearer ".data ++ token)
    (hok : v token = .ok claims) :
    AuthMiddleware v hdr =
      { response := none, aborted := false, ctxUserID := some claims.userID
        ctxEmail := some claims.email, nextRan := true } := by
  have hcons : hdr.data = 'B' :: 'e' :: 'a' :: 'r' :: 'e' :: 'r' :: ' ' :: token := hshape
  have hne : hdr ≠ "" := by
    intro h
    have hnil : ("" : String).data = [] := rfl
    rw [h, hnil] at hcons
    exact absurd hcons (by simp)
  simp [AuthMiddleware, hne, hcons, splitN2_bearer, hok]

/-- Witness for C4: the §8 scenario — a valid token for user 42 passes the
gate with identity id 42 and email `a@x.com` attached and downstream
running. -/
theorem gate_attaches_identity_witness :
    AuthMiddleware demoValidate "Bearer abc" =
      { response := none, aborted := false, ctxUserID := some 42
        ctxEmail := some "a@x.com", nextRan := true } :=
  gate_attaches_identity demoValidate "Bearer abc" "abc".data demoClaims
    (by decide) (by simp [demoValidate])

/-- C5 counterexample: two different internal storage failures during
`Register` surface verbatim as two different client-visible messages of the
HTTP response (`response.BadRequest(c, err.Error(), nil)` in the handler),
so the claim that the caller learns nothing about which internal operation
failed is false for storage failures. -/
theorem register_exposes_storage_detail :
    (AuthHandler.Register (authService.Register (storageFailDeps "db down") [] regReq).1
      ).message = "db down" ∧
    (AuthHandler.Register (authService.Register (storageFailDeps "disk full") [] regReq).1
      ).message = "disk full" ∧
    "db down" ≠ "disk full" :=
  ⟨rfl, rfl, by decide⟩

/-- C5 amended: the Request Gate exposes only the generic
"Invalid or expired token" message for every codec verification failure,
and `Login` shows one and the same client response for an unknown email
and for any password-comparison failure (wrong password or comparison
error — `compareHash` is false for either, per the `AuthDeps` model);
but a storage failure during `Register` is propagated verbatim into the
client-visible message by the handler. -/
theorem failure_message_exposure (hdr : String) :
    (∀ (v : List Char → Except String Claims) (token : List Char) (e : String),
      hdr ≠ "" → splitN2 hdr.data = ("Bearer".data, some token) → v token = .error e →
      AuthMiddleware v hdr = rejectOutcome "Invalid or expired token") ∧
    (∀ (d1 d2 : AuthDeps) (st1 st2 : List User) (req : LoginRequest) (u : User),
      d1.findByEmail st1 req.email = .found u →
      d1.compareHash u.password req.password = false →
      d2.findByEmail st2 req.email = .notFound →
      AuthHandler.Login (authService.Login d1 st1 req).1 =
        AuthHandler.Login (authService.Login d2 st2 req).1) ∧
    (∀ (e : String) (st : List User) (req : RegisterRequest),
      (AuthHandler.Register (authService.Register (storageFailDeps e) st req).1
        ).message = e) := by
  refine ⟨?_, ?_, ?_⟩
  · intro v token e hne hp hv
    simp [AuthMiddleware, hne, hp, hv]
  · intro d1 d2 st1 st2 req u hfound hcmp hmiss
    simp [authService.Login, hfound, hcmp, hmiss]
  · intro e st req
    simp [authService.Register, storageFailDeps, AuthHandler.Register]

/-- Witness for the amended C5: the generic gate message, the merged login
response, and the propagated storage message, on concrete inputs. -/
theorem failure_message_exposure_witness :
    AuthMiddleware demoValidate "Bearer zzz" = rejectOutcome "Invalid or expired token" ∧
    AuthHandler.Login
        (authService.Login demoDeps [regUser] { email := "a@x.com", password := "nope" }).1 =
      AuthHandler.Login
        (authService.Login demoDeps [] { email := "a@x.com", password := "nope" }).1 ∧
    (AuthHandler.Register (authService.Register (storageFailDeps "db down") [] regReq).1
      ).message = "db down" :=
  ⟨(failure_message_exposure "Bearer zzz").1 demoValidate "zzz".data "bad token"
      (by decide) (by decide) rfl,
    (failure_message_exposure "x").2.1 demoDeps demoDeps [regUser] [] _ regUser
      (by decide) (by decide) (by decide),
    (failure_message_exposure "x").2.2 "db down" [] regReq⟩

/-- C7: if `Register` succeeds against the in-memory store (so the email
was free), an immediately following `Login` with the same email and
password — and no intervening writes — succeeds, returns an identity with
that email, and leaves the store as `Register` left it; the stored hash
verifies against the original password via the hasher roundtrip. -/
theorem register_then_login_succeeds (hash : String → Except String String)
    (cmp : String → String → Bool) (gen : Nat → String → Except String String)
    (st st2 : List User) (email pw name : String) (resp : AuthResponse)
    (hround : ∀ digest, hash pw = .ok digest → cmp digest pw = true)
    (hreg : authService.Register (listDeps hash cmp gen) st
      { email := email, password := pw, name := name } = (.ok resp, st2)) :
    ∃ resp2, authService.Login (listDeps hash cmp gen) st2
      { email := email, password := pw } = (.ok resp2, st2) ∧
      resp2.user.email = email := by
  rcases hfind : st.find? (fun u => u.email == email) with _ | u
  · rcases hh : hash pw with e | digest
    · simp [authService.Register, listDeps, findByEmailL, hfind, hh] at hreg
    · rcases hg : gen (nextID st) email with e | tok
      · simp [authService.Register, listDeps, findByEmailL, createL, newUser,
          hfind, hh, hg] at hreg
      · simp [authService.Register, listDeps, findByEmailL, createL, newUser,
          hfind, hh, hg] at hreg
        obtain ⟨hresp, hst⟩ := hreg
        subst hst
        refine ⟨⟨⟨nextID st, email, name, 0, 0⟩, tok⟩, ?_, rfl⟩
        simp [authService.Login, listDeps, findByEmailL, List.find?_append, hfind,
          hround digest hh, hg, toUserResponse]
  · simp [authService.Register, listDeps, findByEmailL, hfind] at hreg

/-- Witness for C7: registering `a@x.com` on the empty store and logging in
right after succeeds with the same email. -/
theorem register_then_login_succeeds_witness :
    ∃ resp2, authService.Login (listDeps demoHash demoCmp demoGen) [regUser]
      { email := "a@x.com", password := "secret1" } = (.ok resp2, [regUser]) ∧
      resp2.user.email = "a@x.com" :=
  register_then_login_succeeds demoHash demoCmp demoGen [] [regUser]
    "a@x.com" "secret1" "A" { user := toUserResponse regUser, token := "tok:1a@x.com" }
    (fun digest h => by
      injection h with h2
      subst h2
      decide)
    rfl

/-- C8: in sequential execution every operation that writes Credential
Records preserves the at-most-one-record-per-email invariant over the
in-memory store (given the store's unique primary keys): `Register` and
user `Create` refuse duplicate inserts, and user `Update` refuses to move
a user onto an email already held by a different user. -/
theorem writes_preserve_unique_emails (hash : String → Except String String)
    (cmp : String → String → Bool) (gen : Nat → String → Except String String)
    (st : List User) (req : RegisterRequest) (creq : CreateUserRequest)
    (id : Nat) (ureq : UpdateUserRequest)
    (hue : UniqueEmails st) (hid : UniqueIDs st) :
    UniqueEmails (authService.Register (listDeps hash cmp gen) st req).2 ∧
    UniqueEmails (userService.Create hash st creq).2 ∧
    UniqueEmails (userService.Update st id ureq).2 :=
  ⟨register_preserves_unique hash cmp gen st req hue,
    create_preserves_unique hash st creq hue,
    update_preserves_unique st id ureq hue hid⟩

/-- Witness for C8: on a one-record store, re-registering the same email,
creating it again, and updating user 1 keep emails unique. -/
theorem writes_preserve_unique_emails_witness :
    UniqueEmails (authService.Register demoDeps [regUser] regReq).2 ∧
    UniqueEmails (userService.Create demoHash [regUser]
      { email := "a@x.com", password := "secret1", name := "A" }).2 ∧
    UniqueEmails (userService.Update [regUser] 1 { email := "b@x.com", name := "" }).2 :=
  writes_preserve_unique_emails demoHash demoCmp demoGen [regUser] regReq
    { email := "a@x.com", password := "secret1", name := "A" } 1
    { email := "b@x.com", name := "" }
    (List.pairwise_singleton _ _) (List.pairwise_singleton _ _)

end GoCleanBoiler
